import Mathlib

/-!
# ClipBeat item-cycling engine: a shallow embedding

This file embeds the core logic of `main.py` (the `ClipBeatApp` class) in
Lean 4 and proves the specification claims about it.

Modelling conventions:
* The observable application state (text buffer, parsed items, line map,
  cursor, label text, highlight mark, clipboard) is the record `AppState`.
* Python exceptions are modelled with `Except (PyErr × AppState) AppState`:
  an uncaught exception carries the state as mutated up to the raise, since
  side effects performed before a Python raise persist.
* Python's `int` cursor is a `Nat` here: the code only ever assigns it
  non-negative values (`0`, `min`/`max` clamps of non-negative values, and
  `%` of a positive modulus, which is non-negative in Python).
-/

/-- Python ASCII whitespace, as recognised by `str.strip()` (restricted to
the ASCII range; the program's items are plain text lines). -/
def isPySpace (c : Char) : Bool :=
  c = ' ' || c = '\t' || c = '\n' || c = '\r' || c = '\x0b' || c = '\x0c'

/-- `str.strip()`: drop whitespace from both ends. -/
def pyStrip (s : String) : String :=
  String.mk (((s.data.dropWhile isPySpace).reverse.dropWhile isPySpace).reverse)

/-- `str.splitlines()` over the line terminators `\n`, `\r`, `\r\n`
(the ones this program can encounter in a Tk text widget).  Like Python,
a trailing terminator does not produce a trailing empty line. -/
def splitLinesAux : List Char → List Char → List String
  | [], acc => if acc.isEmpty then [] else [String.mk acc.reverse]
  | '\r' :: '\n' :: rest, acc => String.mk acc.reverse :: splitLinesAux rest []
  | '\r' :: rest, acc => String.mk acc.reverse :: splitLinesAux rest []
  | '\n' :: rest, acc => String.mk acc.reverse :: splitLinesAux rest []
  | c :: rest, acc => splitLinesAux rest (c :: acc)

/-- `text.splitlines()` as used in `_refresh_items`. -/
def splitlines (s : String) : List String :=
  splitLinesAux s.data []

/-- The loop body of `ClipBeatApp._refresh_items`:
`for lineno, ln in enumerate(raw, start=1): if ln.strip(): items.append(ln.strip()); line_map.append(lineno)`.
Returns the `(items, line_map)` pair built by the loop, starting at line
number `lineno`. -/
def collectItems : Nat → List String → List String × List Nat
  | _, [] => ([], [])
  | lineno, ln :: rest =>
    let tail := collectItems (lineno + 1) rest
    if pyStrip ln ≠ "" then (pyStrip ln :: tail.1, lineno :: tail.2)
    else tail

/-- Python exceptions that the embedded code can raise. -/
inductive PyErr where
  /-- `IndexError` from `list[i]` with `i` out of range. -/
  | indexError
  /-- `TclError` (or similar) raised by a clipboard operation. -/
  | tclError
  deriving Repr, DecidableEq

/-- The observable state of a `ClipBeatApp` instance. -/
structure AppState where
  /-- Contents of the text widget (`self.textbox.get("1.0", "end-1c")`). -/
  text : String
  /-- `self.items`. -/
  items : List String
  /-- `self.line_map`. -/
  lineMap : List Nat
  /-- `self.index` (see the header note on `Nat` vs Python `int`). -/
  index : Nat
  /-- Text of `self.index_lbl`. -/
  label : String
  /-- The line carrying the `current_item` tag, if any. -/
  highlight : Option Nat
  /-- OS clipboard contents; `none` models a cleared clipboard. -/
  clipboard : Option String
  deriving Repr, DecidableEq

/-- State of a freshly constructed `ClipBeatApp` (before any text is typed):
`self.items = []`, `self.line_map = []`, `self.index = 0`, the label widget
is created with text `"0 / 0"`, no highlight tag is applied, and the
clipboard is untouched (modelled as cleared). -/
def initialState : AppState :=
  { text := "", items := [], lineMap := [], index := 0,
    label := "0 / 0", highlight := none, clipboard := none }

/-- `ClipBeatApp._refresh_items`: re-parse the text, rebuild `items` and
`line_map`, and clamp the cursor with
`self.index = min(self.index, max(0, len(self.items) - 1))`
(for `Nat`, truncated `len - 1` coincides with Python's `max(0, len - 1)`). -/
def refreshItems (s : AppState) : AppState :=
  let raw := splitlines s.text
  let parsed := collectItems 1 raw
  { s with items := parsed.1, lineMap := parsed.2,
           index := min s.index (parsed.1.length - 1) }

/-- `ClipBeatApp._update_label`:
`self.index_lbl.configure(text=f"{(self.index) % total + 1 if total else 0} / {total}")`. -/
def updateLabel (s : AppState) : AppState :=
  let total := s.items.length
  { s with label :=
      (if total ≠ 0 then toString (s.index % total + 1) else "0") ++ " / " ++ toString total }

/-- `ClipBeatApp._highlight_current`: always clears the `current_item` tag,
then (for a non-empty sequence) reads `self.line_map[self.index]` — which
raises `IndexError` when out of range — and tags that line. -/
def highlightCurrent (s : AppState) : Except (PyErr × AppState) AppState :=
  let s0 := { s with highlight := none }
  if s0.items.isEmpty then .ok s0
  else
    match s0.lineMap.get? s0.index with
    | none => .error (.indexError, s0)
    | some curLine => .ok { s0 with highlight := some curLine }

/-- `ClipBeatApp._copy_current`: for a non-empty sequence, calls
`self.clipboard_clear()` then `self.clipboard_append(self.items[self.index])`.
`clipOk = false` models the clipboard backend raising on the first clipboard
call (e.g. the clipboard is locked by another process); there is no
`try`/`except` in the source, so the exception propagates. -/
def copyCurrent (clipOk : Bool) (s : AppState) : Except (PyErr × AppState) AppState :=
  if s.items.isEmpty then .ok s
  else if clipOk then
    let s1 := { s with clipboard := none }
    match s1.items.get? s1.index with
    | none => .error (.indexError, s1)
    | some it => .ok { s1 with clipboard := some it }
  else .error (.tclError, s)

/-- `ClipBeatApp.next_item`: refresh/clamp; return if empty; highlight and
copy at the current cursor; update the label; then increment the cursor with
`self.index = (self.index + 1) % len(self.items)`. -/
def nextItem (clipOk : Bool) (s : AppState) : Except (PyErr × AppState) AppState :=
  let s1 := refreshItems s
  if s1.items.isEmpty then .ok s1
  else do
    let s2 ← highlightCurrent s1
    let s3 ← copyCurrent clipOk s2
    let s4 := updateLabel s3
    .ok { s4 with index := (s4.index + 1) % s4.items.length }

/-- `ClipBeatApp.prev_item`: refresh/clamp; return if empty; decrement the
cursor with `self.index = (self.index - 1) % len(self.items)` (for the
non-negative cursor this equals `(index + n - 1) % n` over `Nat`); then
highlight, copy, and update the label. -/
def prevItem (clipOk : Bool) (s : AppState) : Except (PyErr × AppState) AppState :=
  let s1 := refreshItems s
  if s1.items.isEmpty then .ok s1
  else
    let n := s1.items.length
    let s2 := { s1 with index := (s1.index + n - 1) % n }
    do
      let s3 ← highlightCurrent s2
      let s4 ← copyCurrent clipOk s3
      .ok (updateLabel s4)

/-!
## Global hot-key registration (`_register_global_hooks`, `keyboard` backend)
and local shortcuts (`_bind_local_shortcuts`).
-/

/-- The action a registered callback dispatches to: the source builds the
callback as `lambda a=action: tk_safe(self.next_item if a == "next" else self.prev_item)`. -/
def callbackTarget (action : String) : String :=
  if action = "next" then "next" else "prev"

/-- The `for action, combo in self.hotkeys.items()` loop of
`_register_global_hooks`: `keyboard.add_hotkey(combo, ...)` is attempted for
each binding; a `ValueError` (modelled by `valid combo = false`) is caught
and reported via `messagebox.showerror` for that binding only.  Returns the
successfully registered `(combo, target)` pairs and the error-reported
combos, in loop order. -/
def registerLoop (valid : String → Bool) :
    List (String × String) → List (String × String) × List String
  | [] => ([], [])
  | (action, combo) :: rest =>
    let tail := registerLoop valid rest
    if valid combo then ((combo, callbackTarget action) :: tail.1, tail.2)
    else (tail.1, combo :: tail.2)

/-- `ClipBeatApp._register_global_hooks` with the `keyboard` backend:
`_reset_keyboard_hotkeys()` tears down every prior registration (so the
result does not depend on `prior`), the bindings loop runs, and finally
`keyboard.add_hotkey("ctrl+v", ...)` registers the paste alias for `next` —
outside any `try`, so a rejection there would propagate. -/
def registerGlobalHooks (valid : String → Bool) (hotkeys : List (String × String))
    (prior : List (String × String)) :
    Except PyErr (List (String × String) × List String) :=
  let _ := prior
  let looped := registerLoop valid hotkeys
  if valid "ctrl+v" then .ok (looped.1 ++ [("ctrl+v", "next")], looped.2)
  else .error .tclError

/-- `ClipBeatApp._bind_local_shortcuts`: the in-window key bindings, made
unconditionally during `__init__` (before and independently of any global
registration): `<Right>` → `next_item`, `<Left>` → `prev_item`. -/
def bindLocalShortcuts : List (String × String) :=
  [("<Right>", "next"), ("<Left>", "prev")]

/-!
## Basic lemmas about the parse step
-/

/-- The two lists built by the `_refresh_items` loop have equal length. -/
lemma collectItems_length (k : Nat) (ls : List String) :
    (collectItems k ls).2.length = (collectItems k ls).1.length := by
  induction ls generalizing k with
  | nil => rfl
  | cons l rest ih =>
    by_cases h : pyStrip l = ""
    · simp [collectItems, h, ih]
    · simp [collectItems, h, ih]

/-- The items built by the loop are exactly the trimmed non-blank lines, in
source order. -/
lemma collectItems_fst (k : Nat) (ls : List String) :
    (collectItems k ls).1 = (ls.filter (fun l => pyStrip l != "")).map pyStrip := by
  induction ls generalizing k with
  | nil => rfl
  | cons l rest ih =>
    by_cases h : pyStrip l = ""
    · simp [collectItems, h, ih]
    · simp [collectItems, h, ih]

/-- Pairing the line map with the items recovers exactly the 1-based
enumeration of the source lines restricted to non-blank lines, each paired
with its trimmed text. -/
lemma collectItems_zip (k : Nat) (ls : List String) :
    (collectItems k ls).2.zip (collectItems k ls).1 =
      (ls.enumFrom k).filterMap
        (fun p => if pyStrip p.2 ≠ "" then some (p.1, pyStrip p.2) else none) := by
  induction ls generalizing k with
  | nil => rfl
  | cons l rest ih =>
    by_cases h : pyStrip l = ""
    · simp [collectItems, h, List.enumFrom, ih]
    · simp [collectItems, h, List.enumFrom, ih]

/-!
## Basic lemmas about `refreshItems` and the navigation steps
-/

/-- `_refresh_items` only rewrites `items`, `line_map` and `index`. -/
lemma refreshItems_eq (s : AppState) :
    refreshItems s =
      { s with items := (collectItems 1 (splitlines s.text)).1,
               lineMap := (collectItems 1 (splitlines s.text)).2,
               index := min s.index ((collectItems 1 (splitlines s.text)).1.length - 1) } := rfl

/-- After a refresh the line map and the item list always have equal length. -/
lemma refreshItems_length (s : AppState) :
    (refreshItems s).lineMap.length = (refreshItems s).items.length :=
  collectItems_length 1 (splitlines s.text)

/-- The clamp `min(self.index, max(0, len - 1))` puts the cursor in range
whenever the refreshed sequence is non-empty. -/
lemma refreshItems_index_lt (s : AppState) (h : (refreshItems s).items ≠ []) :
    (refreshItems s).index < (refreshItems s).items.length := by
  have hpos : 0 < (refreshItems s).items.length := List.length_pos.mpr h
  have : (refreshItems s).index = min s.index ((refreshItems s).items.length - 1) := rfl
  rw [this]
  omega

/-- If the text parses to no items, the refresh empties both lists and
resets the cursor to `0`, touching nothing else. -/
lemma refreshItems_of_empty (s : AppState)
    (h : (collectItems 1 (splitlines s.text)).1 = []) :
    refreshItems s = { s with items := [], lineMap := [], index := 0 } := by
  have h2 : (collectItems 1 (splitlines s.text)).2 = [] := by
    have := collectItems_length 1 (splitlines s.text)
    rw [h] at this
    exact List.eq_nil_of_length_eq_zero this
  rw [refreshItems_eq, h, h2]
  simp

/-- With no items, `next_item` returns right after the refresh. -/
lemma nextItem_of_empty (clipOk : Bool) (s : AppState)
    (h : (refreshItems s).items = []) :
    nextItem clipOk s = .ok (refreshItems s) := by
  simp [nextItem, h]

/-- With no items, `prev_item` returns right after the refresh. -/
lemma prevItem_of_empty (clipOk : Bool) (s : AppState)
    (h : (refreshItems s).items = []) :
    prevItem clipOk s = .ok (refreshItems s) := by
  simp [prevItem, h]

/-- Wraparound arithmetic: decrementing (Python `(i - 1) % n`) undoes
incrementing (`(i + 1) % n`) for a cursor in range. -/
lemma mod_succ_pred_cancel (c n : Nat) (h : c < n) :
    ((c + 1) % n + n - 1) % n = c := by
  rcases Nat.lt_or_ge (c + 1) n with h1 | h1
  · rw [Nat.mod_eq_of_lt h1]
    have he : c + 1 + n - 1 = c + n := by omega
    rw [he, Nat.add_mod_right, Nat.mod_eq_of_lt h]
  · have hc : c + 1 = n := by omega
    rw [hc, Nat.mod_self]
    have he : 0 + n - 1 = c := by omega
    rw [he, Nat.mod_eq_of_lt h]

/-- Full description of a successful `next_item` on a non-empty sequence:
the item and line at the *pre-increment* cursor are copied and highlighted,
the label shows `cursor + 1 / n`, and only then does the cursor advance. -/
lemma nextItem_ok_of_ne (s : AppState) (h : (refreshItems s).items ≠ []) :
    ∃ line it,
      (refreshItems s).lineMap.get? (refreshItems s).index = some line ∧
      (refreshItems s).items.get? (refreshItems s).index = some it ∧
      nextItem true s = .ok { refreshItems s with
        highlight := some line, clipboard := some it,
        label := toString ((refreshItems s).index + 1) ++ " / " ++
                 toString (refreshItems s).items.length,
        index := ((refreshItems s).index + 1) % (refreshItems s).items.length } := by
  have hlt : (refreshItems s).index < (refreshItems s).items.length :=
    refreshItems_index_lt s h
  have hlm : (refreshItems s).index < (refreshItems s).lineMap.length := by
    rw [refreshItems_length]; exact hlt
  refine ⟨(refreshItems s).lineMap.get ⟨_, hlm⟩, (refreshItems s).items.get ⟨_, hlt⟩,
    List.get?_eq_get hlm, List.get?_eq_get hlt, ?_⟩
  have hne : (refreshItems s).items.isEmpty = false := by
    simp [List.isEmpty_iff, h]
  have hmod : (refreshItems s).index % (refreshItems s).items.length =
      (refreshItems s).index := Nat.mod_eq_of_lt hlt
  simp only [nextItem, hne, Bool.false_eq_true, if_false, highlightCurrent,
    copyCurrent, updateLabel, List.get?_eq_get hlm, List.get?_eq_get hlt,
    Except.bind, bind, hmod]
  simp [hne, List.get?_eq_get hlm, List.get?_eq_get hlt, hmod, h]

/-- Full description of a successful `prev_item` on a non-empty sequence:
the cursor is decremented (with wraparound) *first*, and the item and line at
the post-decrement cursor are then highlighted and copied — the mirror-image
order of `next_item`. -/
lemma prevItem_ok_of_ne (s : AppState) (h : (refreshItems s).items ≠ []) :
    ∃ line it,
      (refreshItems s).lineMap.get?
        (((refreshItems s).index + (refreshItems s).items.length - 1) %
          (refreshItems s).items.length) = some line ∧
      (refreshItems s).items.get?
        (((refreshItems s).index + (refreshItems s).items.length - 1) %
          (refreshItems s).items.length) = some it ∧
      prevItem true s = .ok { refreshItems s with
        index := ((refreshItems s).index + (refreshItems s).items.length - 1) %
                 (refreshItems s).items.length,
        highlight := some line, clipboard := some it,
        label := toString ((((refreshItems s).index + (refreshItems s).items.length - 1) %
                   (refreshItems s).items.length) + 1) ++ " / " ++
                 toString (refreshItems s).items.length } := by
  have hpos : 0 < (refreshItems s).items.length := List.length_pos.mpr h
  have hd : ((refreshItems s).index + (refreshItems s).items.length - 1) %
      (refreshItems s).items.length < (refreshItems s).items.length :=
    Nat.mod_lt _ hpos
  have hdm : ((refreshItems s).index + (refreshItems s).items.length - 1) %
      (refreshItems s).items.length < (refreshItems s).lineMap.length := by
    rw [refreshItems_length]; exact hd
  refine ⟨(refreshItems s).lineMap.get ⟨_, hdm⟩, (refreshItems s).items.get ⟨_, hd⟩,
    List.get?_eq_get hdm, List.get?_eq_get hd, ?_⟩
  have hne : (refreshItems s).items.isEmpty = false := by
    simp [List.isEmpty_iff, h]
  have hmod : (((refreshItems s).index + (refreshItems s).items.length - 1) %
      (refreshItems s).items.length) % (refreshItems s).items.length =
      ((refreshItems s).index + (refreshItems s).items.length - 1) %
      (refreshItems s).items.length := Nat.mod_eq_of_lt hd
  simp only [prevItem, hne, Bool.false_eq_true, if_false, highlightCurrent,
    copyCurrent, updateLabel, List.get?_eq_get hdm, List.get?_eq_get hd,
    Except.bind, bind, hmod]
  simp [hne, List.get?_eq_get hdm, List.get?_eq_get hd, hmod, h]

/-- When the clipboard backend raises during `next_item`, the exception
escapes (there is no handler): the highlight has already moved, but the
cursor, label and clipboard are exactly as the refresh left them. -/
lemma nextItem_clipfail (s : AppState) (h : (refreshItems s).items ≠ []) :
    ∃ line,
      (refreshItems s).lineMap.get? (refreshItems s).index = some line ∧
      nextItem false s =
        .error (.tclError, { refreshItems s with highlight := some line }) := by
  have hlt : (refreshItems s).index < (refreshItems s).items.length :=
    refreshItems_index_lt s h
  have hlm : (refreshItems s).index < (refreshItems s).lineMap.length := by
    rw [refreshItems_length]; exact hlt
  refine ⟨(refreshItems s).lineMap.get ⟨_, hlm⟩, List.get?_eq_get hlm, ?_⟩
  have hne : (refreshItems s).items.isEmpty = false := by
    simp [List.isEmpty_iff, h]
  simp only [nextItem, hne, Bool.false_eq_true, if_false, highlightCurrent,
    copyCurrent, List.get?_eq_get hlm, Except.bind, bind]

/-- When the clipboard backend raises during `prev_item`, the exception
escapes: the cursor has already been decremented and the highlight moved,
but the label and clipboard are untouched. -/
lemma prevItem_clipfail (s : AppState) (h : (refreshItems s).items ≠ []) :
    ∃ line,
      (refreshItems s).lineMap.get?
        (((refreshItems s).index + (refreshItems s).items.length - 1) %
          (refreshItems s).items.length) = some line ∧
      prevItem false s =
        .error (.tclError, { refreshItems s with
          index := ((refreshItems s).index + (refreshItems s).items.length - 1) %
                   (refreshItems s).items.length,
          highlight := some line }) := by
  have hpos : 0 < (refreshItems s).items.length := List.length_pos.mpr h
  have hd : ((refreshItems s).index + (refreshItems s).items.length - 1) %
      (refreshItems s).items.length < (refreshItems s).items.length :=
    Nat.mod_lt _ hpos
  have hdm : ((refreshItems s).index + (refreshItems s).items.length - 1) %
      (refreshItems s).items.length < (refreshItems s).lineMap.length := by
    rw [refreshItems_length]; exact hd
  refine ⟨(refreshItems s).lineMap.get ⟨_, hdm⟩, List.get?_eq_get hdm, ?_⟩
  have hne : (refreshItems s).items.isEmpty = false := by
    simp [List.isEmpty_iff, h]
  simp only [prevItem, hne, Bool.false_eq_true, if_false, highlightCurrent,
    copyCurrent, List.get?_eq_get hdm, Except.bind, bind]

/-- Characterisation of the registration loop: the registered combos are
exactly the ones the backend accepts (each mapped to its action's callback),
and the reported errors are exactly the rejected combos — each binding is
attempted independently of the others. -/
lemma registerLoop_eq (valid : String → Bool) (l : List (String × String)) :
    registerLoop valid l =
      ((l.filter (fun p => valid p.2)).map (fun p => (p.2, callbackTarget p.1)),
       (l.filter (fun p => !valid p.2)).map Prod.snd) := by
  induction l with
  | nil => rfl
  | cons p rest ih =>
    obtain ⟨action, combo⟩ := p
    by_cases h : valid combo
    · simp [registerLoop, h, ih]
    · simp [registerLoop, h, ih]

/-- A navigation call on text with no non-blank lines resets the cursor to
`0` (the clamp) and empties the item lists, but leaves the label, highlight,
clipboard and text untouched and performs no further work. -/
lemma nav_noop_of_empty (clipOk : Bool) (s : AppState)
    (h : (collectItems 1 (splitlines s.text)).1 = []) :
    nextItem clipOk s = .ok { s with items := [], lineMap := [], index := 0 } ∧
    prevItem clipOk s = .ok { s with items := [], lineMap := [], index := 0 } := by
  have hr : refreshItems s = { s with items := [], lineMap := [], index := 0 } :=
    refreshItems_of_empty s h
  have hempty : (refreshItems s).items = [] := by rw [hr]
  exact ⟨by rw [nextItem_of_empty clipOk s hempty, hr],
         by rw [prevItem_of_empty clipOk s hempty, hr]⟩

/-!
## Claim theorems
-/

/-- C10: when `next_item`/`prev_item` run while the text has no non-blank
line, the clamp deterministically resets the cursor to `0`, and nothing else
observable changes: label, highlight and clipboard are exactly as before. -/
theorem empty_navigation_frame (clipOk : Bool) (s : AppState)
    (h : (collectItems 1 (splitlines s.text)).1 = []) :
    nextItem clipOk s = .ok { s with items := [], lineMap := [], index := 0 } ∧
    prevItem clipOk s = .ok { s with items := [], lineMap := [], index := 0 } :=
  nav_noop_of_empty clipOk s h

/-- Witness for `empty_navigation_frame` at a concrete state: whitespace-only
text, stale items, an out-of-range cursor and a leftover label. -/
theorem empty_navigation_frame_witness :
    (collectItems 1 (splitlines " \n\t")).1 = [] ∧
    (nextItem true { text := " \n\t", items := ["old"], lineMap := [2], index := 7,
                     label := "5 / 9", highlight := some 2, clipboard := some "w" } =
       .ok { text := " \n\t", items := [], lineMap := [], index := 0,
             label := "5 / 9", highlight := some 2, clipboard := some "w" } ∧
     prevItem true { text := " \n\t", items := ["old"], lineMap := [2], index := 7,
                     label := "5 / 9", highlight := some 2, clipboard := some "w" } =
       .ok { text := " \n\t", items := [], lineMap := [], index := 0,
             label := "5 / 9", highlight := some 2, clipboard := some "w" }) :=
  ⟨by decide, empty_navigation_frame true _ (by decide)⟩

/-- C1 counterexample: after the sequence shrinks from 1 item to 0 items,
the very next `next_item` call leaves the indicator at its stale text
`"1 / 1"`; it is not rewritten to `"0/0"` (nor `"0 / 0"`). -/
theorem empty_transition_counterexample :
    nextItem true { initialState with text := "a" } =
      .ok { text := "a", items := ["a"], lineMap := [1], index := 0, label := "1 / 1",
            highlight := some 1, clipboard := some "a" } ∧
    nextItem true { text := "", items := ["a"], lineMap := [1], index := 0,
                    label := "1 / 1", highlight := some 1, clipboard := some "a" } =
      .ok { text := "", items := [], lineMap := [], index := 0, label := "1 / 1",
            highlight := some 1, clipboard := some "a" } ∧
    "1 / 1" ≠ "0/0" ∧ "1 / 1" ≠ "0 / 0" :=
  ⟨rfl, rfl, by decide, by decide⟩

/-- C1 (amended): if the sequence length transitions to 0, the next
`next_item`/`prev_item` call and all further such calls are no-ops apart
from clamping the cursor to 0 — no clipboard write, no highlight change,
and also *no label update*: the indicator keeps its previous text (it shows
`0 / 0` only if it already did, e.g. the widget's initial text). -/
theorem empty_transition_label_retained (clipOk : Bool) (s : AppState)
    (h : (collectItems 1 (splitlines s.text)).1 = []) :
    nextItem clipOk s = .ok { s with items := [], lineMap := [], index := 0 } ∧
    prevItem clipOk s = .ok { s with items := [], lineMap := [], index := 0 } ∧
    nextItem clipOk { s with items := [], lineMap := [], index := 0 } =
      .ok { s with items := [], lineMap := [], index := 0 } ∧
    prevItem clipOk { s with items := [], lineMap := [], index := 0 } =
      .ok { s with items := [], lineMap := [], index := 0 } := by
  obtain ⟨h1, h2⟩ := nav_noop_of_empty clipOk s h
  obtain ⟨h3, h4⟩ :=
    nav_noop_of_empty clipOk { s with items := [], lineMap := [], index := 0 } h
  exact ⟨h1, h2, h3, h4⟩

/-- Witness for `empty_transition_label_retained`: the state reached right
after the counterexample's transition. -/
theorem empty_transition_label_retained_witness :
    (collectItems 1 (splitlines "")).1 = [] ∧
    (nextItem true { text := "", items := ["a"], lineMap := [1], index := 0,
                     label := "1 / 1", highlight := some 1, clipboard := some "a" } =
       .ok { text := "", items := [], lineMap := [], index := 0,
             label := "1 / 1", highlight := some 1, clipboard := some "a" } ∧
     prevItem true { text := "", items := ["a"], lineMap := [1], index := 0,
                     label := "1 / 1", highlight := some 1, clipboard := some "a" } =
       .ok { text := "", items := [], lineMap := [], index := 0,
             label := "1 / 1", highlight := some 1, clipboard := some "a" } ∧
     nextItem true { text := "", items := [], lineMap := [], index := 0,
                     label := "1 / 1", highlight := some 1, clipboard := some "a" } =
       .ok { text := "", items := [], lineMap := [], index := 0,
             label := "1 / 1", highlight := some 1, clipboard := some "a" } ∧
     prevItem true { text := "", items := [], lineMap := [], index := 0,
                     label := "1 / 1", highlight := some 1, clipboard := some "a" } =
       .ok { text := "", items := [], lineMap := [], index := 0,
             label := "1 / 1", highlight := some 1, clipboard := some "a" }) :=
  ⟨by decide, empty_transition_label_retained true _ (by decide)⟩

/-- C2 counterexample: with one item `"a"` and a failing clipboard backend,
`next_item` does *not* catch the failure — the exception escapes (the result
is an error, not a completed call), the cursor is still `0` (it did not
advance) and the label still shows its pre-call text `"0 / 0"`; and in
`prev_item` on `"a\nb"` the exception likewise escapes with the label never
updated (though the cursor has already moved to `1`). -/
theorem clipboard_failure_counterexample :
    nextItem false { initialState with text := "a" } =
      .error (.tclError, { text := "a", items := ["a"], lineMap := [1], index := 0,
                           label := "0 / 0", highlight := some 1, clipboard := none }) ∧
    (nextItem false { initialState with text := "a" }).toOption = none ∧
    prevItem false { initialState with text := "a\nb" } =
      .error (.tclError, { text := "a\nb", items := ["a", "b"], lineMap := [1, 2],
                           index := 1, label := "0 / 0", highlight := some 2,
                           clipboard := none }) :=
  ⟨rfl, rfl, rfl⟩

/-- C2 (amended): a clipboard failure during `advance()`/`retreat()` is
*not* caught — the exception propagates out of the call.  At the point of
the raise the highlight has already been updated; in `next_item` the cursor
has not been incremented and the label not updated, while in `prev_item`
the cursor has already been decremented but the label is not updated; the
clipboard itself is left untouched. -/
theorem clipboard_failure_propagates (s : AppState)
    (h : (refreshItems s).items ≠ []) :
    (∃ line,
      (refreshItems s).lineMap.get? (refreshItems s).index = some line ∧
      nextItem false s =
        .error (.tclError, { refreshItems s with highlight := some line })) ∧
    (∃ line,
      (refreshItems s).lineMap.get?
        (((refreshItems s).index + (refreshItems s).items.length - 1) %
          (refreshItems s).items.length) = some line ∧
      prevItem false s =
        .error (.tclError, { refreshItems s with
          index := ((refreshItems s).index + (refreshItems s).items.length - 1) %
                   (refreshItems s).items.length,
          highlight := some line })) ∧
    (refreshItems s).label = s.label ∧
    (refreshItems s).clipboard = s.clipboard :=
  ⟨nextItem_clipfail s h, prevItem_clipfail s h, rfl, rfl⟩

/-- Witness for `clipboard_failure_propagates` at the one-item text `"q"`. -/
theorem clipboard_failure_propagates_witness :
    (refreshItems { initialState with text := "q" }).items ≠ [] ∧
    ((∃ line,
      (refreshItems { initialState with text := "q" }).lineMap.get?
        (refreshItems { initialState with text := "q" }).index = some line ∧
      nextItem false { initialState with text := "q" } =
        .error (.tclError,
          { refreshItems { initialState with text := "q" } with highlight := some line })) ∧
    (∃ line,
      (refreshItems { initialState with text := "q" }).lineMap.get?
        (((refreshItems { initialState with text := "q" }).index +
            (refreshItems { initialState with text := "q" }).items.length - 1) %
          (refreshItems { initialState with text := "q" }).items.length) = some line ∧
      prevItem false { initialState with text := "q" } =
        .error (.tclError,
          { refreshItems { initialState with text := "q" } with
            index := ((refreshItems { initialState with text := "q" }).index +
                (refreshItems { initialState with text := "q" }).items.length - 1) %
              (refreshItems { initialState with text := "q" }).items.length,
            highlight := some line })) ∧
    (refreshItems { initialState with text := "q" }).label =
      ({ initialState with text := "q" } : AppState).label ∧
    (refreshItems { initialState with text := "q" }).clipboard =
      ({ initialState with text := "q" } : AppState).clipboard) :=
  ⟨by decide, clipboard_failure_propagates _ (by decide)⟩

/-- C3: `advance()` is a no-op on an empty re-parsed sequence; otherwise it
re-parses and clamps, highlights and copies the item at the *pre-increment*
cursor, shows `cursor + 1 / n`, and only then increments the cursor modulo
`n`.  On the text `"a\n\nb\nc"` from cursor 0, three calls copy `"a"`,
`"b"`, `"c"` with labels `1 / 3`, `2 / 3`, `3 / 3`, leaving the cursor at
1, 2, then wrapped to 0. -/
theorem advance_behavior :
    (∀ clipOk s, (refreshItems s).items = [] → nextItem clipOk s = .ok (refreshItems s)) ∧
    (∀ s, (refreshItems s).items ≠ [] →
      ∃ line it,
        (refreshItems s).lineMap.get? (refreshItems s).index = some line ∧
        (refreshItems s).items.get? (refreshItems s).index = some it ∧
        nextItem true s = .ok { refreshItems s with
          highlight := some line, clipboard := some it,
          label := toString ((refreshItems s).index + 1) ++ " / " ++
                   toString (refreshItems s).items.length,
          index := ((refreshItems s).index + 1) % (refreshItems s).items.length }) ∧
    collectItems 1 (splitlines "a\n\nb\nc") = (["a", "b", "c"], [1, 3, 4]) ∧
    nextItem true { initialState with text := "a\n\nb\nc" } =
      .ok { text := "a\n\nb\nc", items := ["a", "b", "c"], lineMap := [1, 3, 4],
            index := 1, label := "1 / 3", highlight := some 1, clipboard := some "a" } ∧
    nextItem true { text := "a\n\nb\nc", items := ["a", "b", "c"], lineMap := [1, 3, 4],
                    index := 1, label := "1 / 3", highlight := some 1,
                    clipboard := some "a" } =
      .ok { text := "a\n\nb\nc", items := ["a", "b", "c"], lineMap := [1, 3, 4],
            index := 2, label := "2 / 3", highlight := some 3, clipboard := some "b" } ∧
    nextItem true { text := "a\n\nb\nc", items := ["a", "b", "c"], lineMap := [1, 3, 4],
                    index := 2, label := "2 / 3", highlight := some 3,
                    clipboard := some "b" } =
      .ok { text := "a\n\nb\nc", items := ["a", "b", "c"], lineMap := [1, 3, 4],
            index := 0, label := "3 / 3", highlight := some 4, clipboard := some "c" } :=
  ⟨nextItem_of_empty, nextItem_ok_of_ne, by decide, rfl, rfl, rfl⟩

/-- Witness for `advance_behavior` on the two-item text `"x\ny"`. -/
theorem advance_behavior_witness :
    (refreshItems { initialState with text := "x\ny" }).items ≠ [] ∧
    (∃ line it,
      (refreshItems { initialState with text := "x\ny" }).lineMap.get?
        (refreshItems { initialState with text := "x\ny" }).index = some line ∧
      (refreshItems { initialState with text := "x\ny" }).items.get?
        (refreshItems { initialState with text := "x\ny" }).index = some it ∧
      nextItem true { initialState with text := "x\ny" } =
        .ok { refreshItems { initialState with text := "x\ny" } with
          highlight := some line, clipboard := some it,
          label := toString ((refreshItems { initialState with text := "x\ny" }).index + 1) ++
                   " / " ++
                   toString (refreshItems { initialState with text := "x\ny" }).items.length,
          index := ((refreshItems { initialState with text := "x\ny" }).index + 1) %
                   (refreshItems { initialState with text := "x\ny" }).items.length }) :=
  ⟨by decide, advance_behavior.2.1 _ (by decide)⟩

/-- C4: `retreat()` is a no-op on an empty re-parsed sequence; otherwise it
re-parses and clamps, *first* decrements the cursor with wraparound
(Python `(cursor - 1) % n`, i.e. `(cursor + n - 1) % n`), and only then
highlights and copies the item now at the cursor — the mirror-image order
of `advance()`.  From cursor 0 on `"a\n\nb\nc"` a single call wraps to the
last item `"c"`. -/
theorem retreat_behavior :
    (∀ clipOk s, (refreshItems s).items = [] → prevItem clipOk s = .ok (refreshItems s)) ∧
    (∀ s, (refreshItems s).items ≠ [] →
      ∃ line it,
        (refreshItems s).lineMap.get?
          (((refreshItems s).index + (refreshItems s).items.length - 1) %
            (refreshItems s).items.length) = some line ∧
        (refreshItems s).items.get?
          (((refreshItems s).index + (refreshItems s).items.length - 1) %
            (refreshItems s).items.length) = some it ∧
        prevItem true s = .ok { refreshItems s with
          index := ((refreshItems s).index + (refreshItems s).items.length - 1) %
                   (refreshItems s).items.length,
          highlight := some line, clipboard := some it,
          label := toString ((((refreshItems s).index + (refreshItems s).items.length - 1) %
                     (refreshItems s).items.length) + 1) ++ " / " ++
                   toString (refreshItems s).items.length }) ∧
    prevItem true { initialState with text := "a\n\nb\nc" } =
      .ok { text := "a\n\nb\nc", items := ["a", "b", "c"], lineMap := [1, 3, 4],
            index := 2, label := "3 / 3", highlight := some 4, clipboard := some "c" } :=
  ⟨prevItem_of_empty, prevItem_ok_of_ne, rfl⟩

/-- Witness for `retreat_behavior` on the two-item text `"x\ny"`. -/
theorem retreat_behavior_witness :
    (refreshItems { initialState with text := "x\ny" }).items ≠ [] ∧
    (∃ line it,
      (refreshItems { initialState with text := "x\ny" }).lineMap.get?
        (((refreshItems { initialState with text := "x\ny" }).index +
            (refreshItems { initialState with text := "x\ny" }).items.length - 1) %
          (refreshItems { initialState with text := "x\ny" }).items.length) = some line ∧
      (refreshItems { initialState with text := "x\ny" }).items.get?
        (((refreshItems { initialState with text := "x\ny" }).index +
            (refreshItems { initialState with text := "x\ny" }).items.length - 1) %
          (refreshItems { initialState with text := "x\ny" }).items.length) = some it ∧
      prevItem true { initialState with text := "x\ny" } =
        .ok { refreshItems { initialState with text := "x\ny" } with
          index := ((refreshItems { initialState with text := "x\ny" }).index +
              (refreshItems { initialState with text := "x\ny" }).items.length - 1) %
            (refreshItems { initialState with text := "x\ny" }).items.length,
          highlight := some line, clipboard := some it,
          label := toString ((((refreshItems { initialState with text := "x\ny" }).index +
                (refreshItems { initialState with text := "x\ny" }).items.length - 1) %
              (refreshItems { initialState with text := "x\ny" }).items.length) + 1) ++
            " / " ++
            toString (refreshItems { initialState with text := "x\ny" }).items.length }) :=
  ⟨by decide, retreat_behavior.2.1 _ (by decide)⟩

/-- C5: the parse step is a pure total function of the text.  It yields
exactly the non-blank (after trimming) lines, in top-to-bottom order, each
trimmed; pairing the line map with the items recovers the 1-based
enumeration of the source lines restricted to non-blank ones, so each item
carries the 1-based number of the line it came from; blank and
whitespace-only lines are excluded by construction, and empty text yields
an empty sequence. -/
theorem parse_behavior (t : String) :
    (collectItems 1 (splitlines t)).1 =
      ((splitlines t).filter (fun l => pyStrip l != "")).map pyStrip ∧
    (collectItems 1 (splitlines t)).1.length =
      ((splitlines t).filter (fun l => pyStrip l != "")).length ∧
    (collectItems 1 (splitlines t)).2.length = (collectItems 1 (splitlines t)).1.length ∧
    (collectItems 1 (splitlines t)).2.zip (collectItems 1 (splitlines t)).1 =
      ((splitlines t).enumFrom 1).filterMap
        (fun p => if pyStrip p.2 ≠ "" then some (p.1, pyStrip p.2) else none) ∧
    splitlines "" = [] ∧
    collectItems 1 (splitlines "") = ([], []) :=
  ⟨collectItems_fst 1 _, by rw [collectItems_fst]; simp,
   collectItems_length 1 _, collectItems_zip 1 _, rfl, rfl⟩

/-- C6: after every rebuild the line map and item list have equal length
and, for a non-empty sequence, the cursor is clamped into range
(`min(previous cursor, n - 1)`); consequently the highlight and copy steps
never perform an out-of-range access: no navigation call can raise
`IndexError`, and with a working clipboard every call completes. -/
theorem cursor_clamp_safety (clipOk : Bool) (s : AppState) :
    (refreshItems s).lineMap.length = (refreshItems s).items.length ∧
    ((refreshItems s).items ≠ [] →
      (refreshItems s).index < (refreshItems s).items.length ∧
      (refreshItems s).index = min s.index ((refreshItems s).items.length - 1)) ∧
    (∀ st, nextItem clipOk s ≠ .error (.indexError, st)) ∧
    (∀ st, prevItem clipOk s ≠ .error (.indexError, st)) ∧
    (∃ s₂, nextItem true s = .ok s₂) ∧
    (∃ s₂, prevItem true s = .ok s₂) := by
  refine ⟨refreshItems_length s,
    fun h => ⟨refreshItems_index_lt s h, rfl⟩, ?_, ?_, ?_, ?_⟩
  · intro st heq
    by_cases h : (refreshItems s).items = []
    · rw [nextItem_of_empty clipOk s h] at heq
      cases heq
    · cases clipOk with
      | true =>
        obtain ⟨line, it, -, -, hok⟩ := nextItem_ok_of_ne s h
        rw [hok] at heq
        cases heq
      | false =>
        obtain ⟨line, -, herr⟩ := nextItem_clipfail s h
        rw [herr] at heq
        cases heq
  · intro st heq
    by_cases h : (refreshItems s).items = []
    · rw [prevItem_of_empty clipOk s h] at heq
      cases heq
    · cases clipOk with
      | true =>
        obtain ⟨line, it, -, -, hok⟩ := prevItem_ok_of_ne s h
        rw [hok] at heq
        cases heq
      | false =>
        obtain ⟨line, -, herr⟩ := prevItem_clipfail s h
        rw [herr] at heq
        cases heq
  · by_cases h : (refreshItems s).items = []
    · exact ⟨refreshItems s, nextItem_of_empty true s h⟩
    · obtain ⟨line, it, -, -, hok⟩ := nextItem_ok_of_ne s h
      exact ⟨_, hok⟩
  · by_cases h : (refreshItems s).items = []
    · exact ⟨refreshItems s, prevItem_of_empty true s h⟩
    · obtain ⟨line, it, -, -, hok⟩ := prevItem_ok_of_ne s h
      exact ⟨_, hok⟩

/-- Witness for `cursor_clamp_safety`: a state whose cursor `5` is out of
range for the 2-item re-parse and gets clamped to the last valid index. -/
theorem cursor_clamp_safety_witness :
    (refreshItems { text := "x\ny", items := [], lineMap := [], index := 5,
                    label := "0 / 0", highlight := none, clipboard := none }).items ≠ [] ∧
    ((refreshItems { text := "x\ny", items := [], lineMap := [], index := 5,
                     label := "0 / 0", highlight := none, clipboard := none }).index <
      (refreshItems { text := "x\ny", items := [], lineMap := [], index := 5,
                      label := "0 / 0", highlight := none, clipboard := none }).items.length ∧
     (refreshItems { text := "x\ny", items := [], lineMap := [], index := 5,
                     label := "0 / 0", highlight := none, clipboard := none }).index =
       min 5
         ((refreshItems { text := "x\ny", items := [], lineMap := [], index := 5,
                          label := "0 / 0", highlight := none,
                          clipboard := none }).items.length - 1)) :=
  ⟨by decide,
   (cursor_clamp_safety true
     { text := "x\ny", items := [], lineMap := [], index := 5,
       label := "0 / 0", highlight := none, clipboard := none }).2.1 (by decide)⟩

/-- C8: registration tears down all prior combos first (the result is
independent of the prior registrations); each binding is attempted
independently — the registered combos are exactly those the backend accepts
and the reported errors exactly the rejected ones, so one rejected combo
does not prevent the other binding; and the in-window local arrow-key
bindings exist unconditionally.  On the spec's example, `prev` is still
registered, only `next`'s combo is reported. -/
theorem hotkey_registration_independent (valid : String → Bool)
    (hotkeys prior : List (String × String)) (h : valid "ctrl+v" = true) :
    registerGlobalHooks valid hotkeys prior =
      .ok ((hotkeys.filter (fun p => valid p.2)).map
             (fun p => (p.2, callbackTarget p.1)) ++ [("ctrl+v", "next")],
           (hotkeys.filter (fun p => !valid p.2)).map Prod.snd) ∧
    registerGlobalHooks valid hotkeys prior = registerGlobalHooks valid hotkeys [] ∧
    bindLocalShortcuts = [("<Right>", "next"), ("<Left>", "prev")] ∧
    registerGlobalHooks (fun c => c != "bad!!combo")
        [("next", "bad!!combo"), ("prev", "ctrl+left")] prior =
      .ok ([("ctrl+left", "prev"), ("ctrl+v", "next")], ["bad!!combo"]) := by
  refine ⟨?_, rfl, rfl, rfl⟩
  simp [registerGlobalHooks, registerLoop_eq, h]

/-- Witness for `hotkey_registration_independent` on the spec's example
bindings, with a non-empty prior registration set. -/
theorem hotkey_registration_independent_witness :
    ((fun c => c != "bad!!combo") "ctrl+v" = true) ∧
    (registerGlobalHooks (fun c => c != "bad!!combo")
        [("next", "bad!!combo"), ("prev", "ctrl+left")] [("stale", "next")] =
      .ok (([("next", "bad!!combo"), ("prev", "ctrl+left")].filter
              (fun p => (fun c => c != "bad!!combo") p.2)).map
             (fun p => (p.2, callbackTarget p.1)) ++ [("ctrl+v", "next")],
           ([("next", "bad!!combo"), ("prev", "ctrl+left")].filter
              (fun p => !(fun c => c != "bad!!combo") p.2)).map Prod.snd) ∧
     registerGlobalHooks (fun c => c != "bad!!combo")
        [("next", "bad!!combo"), ("prev", "ctrl+left")] [("stale", "next")] =
       registerGlobalHooks (fun c => c != "bad!!combo")
        [("next", "bad!!combo"), ("prev", "ctrl+left")] [] ∧
     bindLocalShortcuts = [("<Right>", "next"), ("<Left>", "prev")] ∧
     registerGlobalHooks (fun c => c != "bad!!combo")
        [("next", "bad!!combo"), ("prev", "ctrl+left")] [("stale", "next")] =
       .ok ([("ctrl+left", "prev"), ("ctrl+v", "next")], ["bad!!combo"])) :=
  ⟨by decide,
   hotkey_registration_independent (fun c => c != "bad!!combo")
     [("next", "bad!!combo"), ("prev", "ctrl+left")] [("stale", "next")] (by decide)⟩

/-- C7: on a non-empty sequence with the text unchanged in between,
`advance()` followed immediately by `retreat()` copies and displays the same
item in both calls (same clipboard text, same highlighted line, same label),
and the retreat restores the cursor to the value it had just after the
advance's copy step (the clamped pre-increment cursor). -/
theorem advance_retreat_roundtrip (s : AppState)
    (h : (refreshItems s).items ≠ []) :
    ∃ sA sB, nextItem true s = .ok sA ∧ prevItem true sA = .ok sB ∧
      sB.clipboard = sA.clipboard ∧ sB.highlight = sA.highlight ∧
      sB.label = sA.label ∧ sB.index = (refreshItems s).index ∧
      sA.clipboard = (refreshItems s).items.get? (refreshItems s).index := by
  obtain ⟨line, it, hline, hit, hnext⟩ := nextItem_ok_of_ne s h
  have hpos : 0 < (refreshItems s).items.length := List.length_pos.mpr h
  have hc : (refreshItems s).index < (refreshItems s).items.length :=
    refreshItems_index_lt s h
  set sA : AppState := { refreshItems s with
    highlight := some line, clipboard := some it,
    label := toString ((refreshItems s).index + 1) ++ " / " ++
             toString (refreshItems s).items.length,
    index := ((refreshItems s).index + 1) % (refreshItems s).items.length } with hsA
  have hAidxlt : sA.index < (refreshItems s).items.length := Nat.mod_lt _ hpos
  have hrA : refreshItems sA = sA := by
    have hmin : min sA.index ((collectItems 1 (splitlines sA.text)).1.length - 1) =
        sA.index := by
      have hlen : (collectItems 1 (splitlines sA.text)).1.length =
          (refreshItems s).items.length := rfl
      rw [hlen]
      exact Nat.min_eq_left (by omega)
    rw [refreshItems_eq sA, hmin]
    rfl
  have h' : (refreshItems sA).items ≠ [] := by
    rw [hrA]
    exact h
  obtain ⟨line', it', hline', hit', hprev⟩ := prevItem_ok_of_ne sA h'
  rw [hrA] at hline' hit' hprev
  have hd : (sA.index + sA.items.length - 1) % sA.items.length =
      (refreshItems s).index := mod_succ_pred_cancel _ _ hc
  rw [hd] at hline' hit' hprev
  have hline2 : line' = line := Option.some.inj (hline'.symm.trans hline)
  have hit2 : it' = it := Option.some.inj (hit'.symm.trans hit)
  subst hline2 hit2
  refine ⟨sA, _, hnext, hprev, rfl, rfl, rfl, rfl, hit.symm⟩

/-- Witness for `advance_retreat_roundtrip` on `"p\nq"` from cursor 1: the
advance copies `"q"` and wraps to 0, the retreat comes back to 1 and copies
`"q"` again. -/
theorem advance_retreat_roundtrip_witness :
    (refreshItems { text := "p\nq", items := [], lineMap := [], index := 1,
                    label := "0 / 0", highlight := none, clipboard := none }).items ≠ [] ∧
    (∃ sA sB,
      nextItem true { text := "p\nq", items := [], lineMap := [], index := 1,
                      label := "0 / 0", highlight := none, clipboard := none } = .ok sA ∧
      prevItem true sA = .ok sB ∧
      sB.clipboard = sA.clipboard ∧ sB.highlight = sA.highlight ∧
      sB.label = sA.label ∧
      sB.index = (refreshItems { text := "p\nq", items := [], lineMap := [], index := 1,
                                 label := "0 / 0", highlight := none,
                                 clipboard := none }).index ∧
      sA.clipboard =
        (refreshItems { text := "p\nq", items := [], lineMap := [], index := 1,
                        label := "0 / 0", highlight := none,
                        clipboard := none }).items.get?
          (refreshItems { text := "p\nq", items := [], lineMap := [], index := 1,
                          label := "0 / 0", highlight := none,
                          clipboard := none }).index) :=
  ⟨by decide,
   advance_retreat_roundtrip
     { text := "p\nq", items := [], lineMap := [], index := 1,
       label := "0 / 0", highlight := none, clipboard := none } (by decide)⟩
